import Mathlib

/-!
Verification development for the SlideMaster presentation-session manager.

The token store, validation handler and request gate are embedded from
`slidev_auth.py` and `slide_master_3000.py`; the process-supervisor
build/wait loops are embedded as event traces and fuel-indexed loops from
`slide_master_3000.py` / `slidev_viewer.py`.

Strings are modelled as `List Char` (the `.data` of Lean `String`s);
percent-decoding of query strings is modelled as the identity (the tokens
issued by the code are URL-safe and contain no escape sequences).
-/

namespace SlideMaster

/-- Split a character list at every occurrence of `c`
(the semantics of Python `str.split(c)`). -/
def splitOnChar (c : Char) : List Char → List (List Char)
  | [] => [[]]
  | x :: xs =>
    match splitOnChar c xs with
    | [] => [[]]
    | y :: ys => if x = c then [] :: y :: ys else (x :: y) :: ys

/-- Split a character list at the first occurrence of `c`, if any
(the semantics of Python `str.split(c, 1)`). -/
def breakOnChar (c : Char) : List Char → List Char × Option (List Char)
  | [] => ([], none)
  | x :: xs =>
    if x = c then ([], some xs)
    else
      let r := breakOnChar c xs
      (x :: r.1, r.2)

/-- Boolean "is a prefix of" on character lists. -/
def isPrefixOfB : List Char → List Char → Bool
  | [], _ => true
  | _ :: _, [] => false
  | a :: as, b :: bs => a == b && isPrefixOfB as bs

/-- Boolean substring test: does `needle` occur contiguously in `haystack`
(the semantics of Python `needle in haystack` on strings)? -/
def containsSub (needle : List Char) : List Char → Bool
  | [] => needle == []
  | c :: rest => isPrefixOfB needle (c :: rest) || containsSub needle rest

/-- `urllib.parse.urlparse(target).path` for an HTTP request target:
the fragment (first `#`) is cut off, then everything from the first `?`. -/
def urlPath (raw : List Char) : List Char :=
  (breakOnChar '?' (breakOnChar '#' raw).1).1

/-- `urllib.parse.urlparse(target).query`: the part of the target after the
first `?` (with the fragment already cut off), or empty if there is none. -/
def urlQuery (raw : List Char) : List Char :=
  ((breakOnChar '?' (breakOnChar '#' raw).1).2).getD []

/-- `urllib.parse.parse_qsl(query)`: split on `&`, split each field once at
`=`; fields without `=` and fields with a blank value are dropped
(`keep_blank_values` is False in the defaults of `parse_qs`, as the code uses it). -/
def parse_qsl (query : List Char) : List (List Char × List Char) :=
  (splitOnChar '&' query).filterMap (fun field =>
    match breakOnChar '=' field with
    | (_, none) => none
    | (name, some value) => if value = [] then none else some (name, value))

/-- First value bound to `key` in a parsed query, or the empty string:
the head of `params.get(key)` with an empty-string default, on the grouping
produced by `parse_qs`. -/
def findParam (key : List Char) : List (List Char × List Char) → List Char
  | [] => []
  | (k, v) :: rest => if k = key then v else findParam key rest

/-- One token record, as written by `_generate_presentation_token`
(`slide_master_3000.py`): a JSON object with the fields `presentation`,
`created`, `expires` and `user`. The `expires` field is optional because
`_validate_token` explicitly checks whether that key is present. -/
structure Grant where
  presentation : List Char
  created : Int
  expires : Option Int
  user : List Char
deriving DecidableEq

/-- The in-memory token store: a JSON object keyed by token string,
in insertion order (a Python dict). -/
abbrev TokenStore := List (List Char × Grant)

/-- Dict member lookup, `tokens[token]` / `token in tokens`. -/
def lookupToken : TokenStore → List Char → Option Grant
  | [], _ => none
  | (k, g) :: rest, t => if k = t then some g else lookupToken rest t

/-- Dict assignment `tokens[token] = data`: replace in place if the key is
present, otherwise append at the end. -/
def dictInsert : TokenStore → List Char → Grant → TokenStore
  | [], t, g => [(t, g)]
  | (k, v) :: rest, t, g =>
    if k = t then (t, g) :: rest else (k, v) :: dictInsert rest t g

/-- The state of the on-disk tokens file: absent, present but unreadable or
not valid JSON, or readable with the given contents. -/
inductive TokensFile
  | missing
  | corrupt
  | ok (tokens : TokenStore)
deriving DecidableEq

/-- `get_valid_tokens` (`slidev_auth.py` lines 21-35): load the tokens file,
returning an empty dict when the file does not exist or reading it raises. -/
def get_valid_tokens : TokensFile → TokenStore
  | .missing => []
  | .corrupt => []
  | .ok ts => ts

/-- `TokenAuthHandler._validate_token` (`slidev_auth.py` lines 70-99):
an empty token is rejected (`if not token`); then the store is re-loaded,
an unknown token is rejected, a record without an `"expires"` key or with
`expires < current_time` is rejected, and anything else is accepted. -/
def validate_token (file : TokensFile) (token : List Char) (now : Int) : Bool :=
  if token = [] then false
  else
    match lookupToken (get_valid_tokens file) token with
    | none => false
    | some g =>
      match g.expires with
      | none => false
      | some e => if e < now then false else true

/-- The first `access_token` value in the query of the request target, or
the empty string when the parameter is absent (`slidev_auth.py` line 48). -/
def extractToken (rawPath : List Char) : List Char :=
  findParam "access_token".data (parse_qsl (urlQuery rawPath))

/-- Does the query string of the request target bind `access_token` at all? -/
def hasAccessToken (rawPath : List Char) : Bool :=
  (parse_qsl (urlQuery rawPath)).any (fun kv => kv.1 == "access_token".data)

/-- The cleaned path the handler assigns back to `self.path`: the parsed
path when nonempty, else the root path (`slidev_auth.py` line 61). -/
def strippedPath (rawPath : List Char) : List Char :=
  if urlPath rawPath = [] then "/".data else urlPath rawPath

/-- Outcome of `TokenAuthHandler.do_GET`: either the 403 denial, or
falling through to `SimpleHTTPRequestHandler.do_GET` on the cleaned path. -/
inductive HandlerResult
  | denied
  | serve (path : List Char)
deriving DecidableEq

/-- `TokenAuthHandler.do_GET` (`slidev_auth.py` lines 41-68). -/
def do_GET (file : TokensFile) (now : Int) (rawPath : List Char) : HandlerResult :=
  if validate_token file (extractToken rawPath) now then
    .serve (strippedPath rawPath)
  else .denied

/-- An HTTP response as seen on the wire: status code and body. -/
structure Response where
  status : Nat
  body : List Char
deriving DecidableEq

/-- The fixed denial: `send_response(403)` and the constant
Access-Denied body (`slidev_auth.py` lines 52-55). -/
def deniedResponse : Response :=
  ⟨403, "Access Denied: Valid token required".data⟩

/-- Map a handler outcome to the wire response, parametric in whatever the
underlying static file server does with a served path. -/
def responseOf (fileServe : List Char → Response) : HandlerResult → Response
  | .denied => deniedResponse
  | .serve p => fileServe p

/-! ### Static-file path resolution

`TokenAuthHandler` inherits serving from `SimpleHTTPRequestHandler`, whose
`translate_path` maps the request path into the content root: it cuts the
path at `?` and `#`, normalises it with `posixpath.normpath`, splits on `/`,
drops empty components, and skips any component that contains a separator or
equals `.` or `..` before joining the rest under the serving directory. -/

/-- The component loop of `posixpath.normpath`: drop empty and `.`
components; `..` pops the previous component, except that at the start of a
relative path (or after a surviving `..`) it is kept, and above the root of
an absolute path it is dropped. `acc` holds the output so far, reversed. -/
def normComps (initSlash : Bool) : List (List Char) → List (List Char) → List (List Char)
  | acc, [] => acc.reverse
  | acc, comp :: rest =>
    if comp = [] ∨ comp = ".".data then normComps initSlash acc rest
    else if comp = "..".data then
      match acc with
      | [] =>
        if initSlash then normComps initSlash [] rest
        else normComps initSlash [comp] rest
      | top :: accTl =>
        if top = "..".data then normComps initSlash (comp :: acc) rest
        else normComps initSlash accTl rest
    else normComps initSlash (comp :: acc) rest

/-- `posixpath.normpath`, on the component level. (The POSIX special case
of exactly two leading slashes only changes how many slashes are printed,
which `translate_path` re-splits and drops again, so it is not modelled.) -/
def normpath (p : List Char) : List Char :=
  if p = [] then ".".data
  else
    let initSlash := p.head? = some '/'
    let comps := normComps initSlash [] (splitOnChar '/' p)
    let joined := match comps with
      | [] => []
      | c :: cs => c ++ cs.foldl (fun acc w => acc ++ "/".data ++ w) []
    let r := (if initSlash then "/".data else []) ++ joined
    if r = [] then ".".data else r

/-- A path component `translate_path` keeps: no separator inside
(`os.path.dirname(word)` empty) and not `.` or `..`. -/
def isSimpleComp (w : List Char) : Bool :=
  !(w.contains '/') && !(w == ".".data) && !(w == "..".data)

/-- The components `translate_path` appends under the serving directory. -/
def servedWords (rawPath : List Char) : List (List Char) :=
  let p := (breakOnChar '?' rawPath).1
  let p2 := (breakOnChar '#' p).1
  let p3 := normpath p2
  ((splitOnChar '/' p3).filter (fun w => decide (w ≠ []))).filter isSimpleComp

/-- `SimpleHTTPRequestHandler.translate_path`, on the component level:
the resolved filesystem path is the serving directory followed by the
kept request-path components. -/
def translate_path (root : List (List Char)) (rawPath : List Char) : List (List Char) :=
  root ++ servedWords rawPath

/-- A filesystem as the static server sees it: resolved component paths
mapped to file bytes. -/
def fsLookup : List (List (List Char) × List Char) → List (List Char) → Option (List Char)
  | [], _ => none
  | (p, c) :: rest, q => if p = q then some c else fsLookup rest q

/-- Standard static-file serving of a (query-stripped) path: 200 with the
file bytes when `translate_path` resolves to an existing file, else 404. -/
def serve_file (fs : List (List (List Char) × List Char)) (root : List (List Char))
    (path : List Char) : Response :=
  match fsLookup fs (translate_path root path) with
  | some c => ⟨200, c⟩
  | none => ⟨404, "File not found".data⟩

/-- The whole gate: `do_GET` followed by static serving on acceptance. -/
def handle_request (fs : List (List (List Char) × List Char)) (root : List (List Char))
    (file : TokensFile) (now : Int) (rawPath : List Char) : Response :=
  responseOf (serve_file fs root) (do_GET file now rawPath)

/-! ### Token issuance

`_generate_presentation_token` (`slide_master_3000.py` lines 363-410):
mint a fresh random token, load the tokens file (an unreadable or missing
file becomes the empty dict, by the same logic as `get_valid_tokens`),
assign the new record under the new token, and write the whole dict back. -/

/-- The store `_generate_presentation_token` writes back: the loaded
contents with the new grant assigned under the new token. -/
def generate_presentation_token (file : TokensFile) (token : List Char) (g : Grant) :
    TokenStore :=
  dictInsert (get_valid_tokens file) token g

/-! ### Process supervisor: build trace and readiness wait

`_build_slidev` (`slide_master_3000.py` lines 339-361, and the near-duplicate
in `slidev_viewer.py` lines 259-283) runs `_cache_presentation`, then
`_start_slidev` (which first runs `_stop_slidev`, then `Popen`s the renderer),
then a readiness-polling loop on port 3030. The side effects are embedded as
an event trace; sleeps and UI progress calls are not events. -/

/-- One observable side effect of a build. -/
inductive BuildEvent
  | removeSlides
  | removeAssets
  | makeAssetsDir
  | downloadSlides
  | downloadAsset
  | killProcess
  | launchProcess
  | waitForPort
deriving DecidableEq

/-- `_cache_presentation`: remove `./slides.md` if present, remove the
`./assets` tree if present, recreate `./assets`, download the slides, then
each asset. -/
def cache_presentation_trace (slidesExist assetsExist : Bool) (nAssets : Nat) :
    List BuildEvent :=
  (if slidesExist then [.removeSlides] else []) ++
  (if assetsExist then [.removeAssets] else []) ++
  [.makeAssetsDir, .downloadSlides] ++ List.replicate nAssets .downloadAsset

/-- `_stop_slidev`: when port 3030 is occupied, the occupant is killed
(`os.kill`/`pkill`); otherwise nothing happens. -/
def stop_slidev_trace (portInUse : Bool) : List BuildEvent :=
  if portInUse then [.killProcess] else []

/-- `_start_slidev`: stop whatever holds the port, then launch the renderer. -/
def start_slidev_trace (portInUse : Bool) : List BuildEvent :=
  stop_slidev_trace portInUse ++ [.launchProcess]

/-- `_build_slidev`: replace the cached content, then start the renderer,
then wait for the port. -/
def build_slidev_trace (slidesExist assetsExist : Bool) (nAssets : Nat)
    (portInUse : Bool) : List BuildEvent :=
  cache_presentation_trace slidesExist assetsExist nAssets ++
  start_slidev_trace portInUse ++ [.waitForPort]

/-- Position of the first occurrence of an event in a trace. -/
def eventPos (tr : List BuildEvent) (e : BuildEvent) : Nat :=
  tr.findIdx (fun x => decide (x = e))

/-- The readiness wait of `_build_slidev`
(`while not _is_port_in_use(3030): ... sleep ...`), indexed by fuel:
`status n` is the port probe at the n-th iteration; `some n` means the loop
exited after the n-th probe succeeded, `none` means it is still running
after `fuel` probes. The source loop has no fuel parameter — this is the
standard fuel embedding of an unbounded `while`. -/
def wait_for_port (status : Nat → Bool) : Nat → Nat → Option Nat
  | 0, _ => none
  | fuel + 1, n => if status n then some n else wait_for_port status fuel (n + 1)

/-! ### Logging

`_validate_token` and `do_GET` log through `logger`; `view_presentation`
(`slide_master_3000.py` lines 412-453) logs the ready URL. Log records are
embedded as the formatted message strings. -/

/-- The Found-N-tokens-in-storage message, with the store size interpolated. -/
def found_tokens_msg (n : Nat) : List Char :=
  "Found ".data ++ Nat.toDigits 10 n ++ " tokens in storage".data

/-- The log lines emitted by one `_validate_token` call, in order. -/
def validate_token_logs (file : TokensFile) (token : List Char) (now : Int) :
    List (List Char) :=
  "Validating token request".data ::
  (if token = [] then ["No token provided".data]
   else
     found_tokens_msg (get_valid_tokens file).length ::
     match lookupToken (get_valid_tokens file) token with
     | none => ["Invalid token".data]
     | some g =>
       match g.expires with
       | none => ["Expired token".data]
       | some e =>
         if e < now then ["Expired token".data] else ["Valid token access".data])

/-- The request line `BaseHTTPRequestHandler.log_request` reports through the
overridden `log_message` when serving proceeds: it is the original request
line, query string included (mutating `self.path` does not change
`self.requestline`). -/
def request_log_line (rawPath : List Char) : List Char :=
  "GET ".data ++ rawPath ++ " HTTP/1.1".data

/-- The log lines of one `do_GET` call: the validation logs, then either
the Access-denied message with `self.path` interpolated (the raw target,
query included) on denial, or the served request line. -/
def do_GET_logs (file : TokensFile) (now : Int) (rawPath : List Char) :
    List (List Char) :=
  validate_token_logs file (extractToken rawPath) now ++
  (if validate_token file (extractToken rawPath) now then
     [request_log_line rawPath]
   else ["Access denied for request: ".data ++ rawPath])

/-- The Presentation-ready message of `view_presentation`, with the full
presentation URL interpolated: the domain, then the query string carrying
the freshly issued token. -/
def view_presentation_log (domain token : List Char) : List Char :=
  "Presentation ready at: ".data ++ domain ++ "?access_token=".data ++ token

/-! ### Concrete fixtures used in witnesses and counterexamples -/

/-- A grant for token `T`: created at instant 5, expiring at instant 10. -/
def c1Grant : Grant := ⟨"demo".data, 5, some 10, "unknown".data⟩

/-- A one-grant store holding `c1Grant` under token `T`. -/
def c1Store : TokenStore := [("T".data, c1Grant)]

/-- Content root used in the serving scenario. -/
def c3Root : List (List Char) := ["srv".data]

/-- A content root holding exactly one file, `slides.md`. -/
def c3Fs : List (List (List Char) × List Char) :=
  [(["srv".data, "slides.md".data], "# Slides".data)]

/-- A store whose token `T` is valid at instant 0. -/
def c3File : TokensFile := .ok [("T".data, ⟨"demo".data, 0, some 100, "unknown".data⟩)]

/-- A grant for the first issuance in the sequential-issuance scenario. -/
def c8GrantA : Grant := ⟨"talkA".data, 0, some 100, "u".data⟩

/-- A grant for the second issuance in the sequential-issuance scenario. -/
def c8GrantB : Grant := ⟨"talkB".data, 1, some 101, "u".data⟩

/-- The build trace with cached content present, one asset, and the port
occupied: every conditional branch of the build is exercised. -/
def c2DemoTrace : List BuildEvent := build_slidev_trace true true 1 true

/-! ### Helper lemmas -/

/-- A query whose parsed parameters never bind `key` extracts the empty
default value. -/
theorem findParam_eq_nil (key : List Char) :
    ∀ params : List (List Char × List Char),
      params.any (fun kv => kv.1 == key) = false → findParam key params = [] := by
  intro params h
  induction params with
  | nil => rfl
  | cons kv rest ih =>
    simp only [List.any_cons, Bool.or_eq_false_iff] at h
    rw [findParam, if_neg (by simpa using h.1)]
    exact ih h.2

/-- The empty token never validates, whatever the store and the time. -/
theorem validate_token_nil (file : TokensFile) (now : Int) :
    validate_token file [] now = false := by
  simp [validate_token]

/-- A token the loaded snapshot does not contain never validates. -/
theorem validate_token_of_lookup_none (file : TokensFile) (t : List Char) (now : Int)
    (h : lookupToken (get_valid_tokens file) t = none) :
    validate_token file t now = false := by
  unfold validate_token
  rw [h]
  simp

/-- After a dict assignment, the assigned key maps to the assigned value. -/
theorem lookup_dictInsert_self (ts : TokenStore) (t : List Char) (g : Grant) :
    lookupToken (dictInsert ts t g) t = some g := by
  induction ts with
  | nil => simp [dictInsert, lookupToken]
  | cons kv rest ih =>
    obtain ⟨k, v⟩ := kv
    by_cases h : k = t
    · simp [dictInsert, h, lookupToken]
    · simp [dictInsert, h, lookupToken, ih]

/-- A dict assignment leaves every other key untouched. -/
theorem lookup_dictInsert_other (ts : TokenStore) (t t' : List Char) (g : Grant)
    (hne : t' ≠ t) : lookupToken (dictInsert ts t g) t' = lookupToken ts t' := by
  have hnt : t ≠ t' := Ne.symm hne
  induction ts with
  | nil => simp [dictInsert, lookupToken, hnt]
  | cons kv rest ih =>
    obtain ⟨k, v⟩ := kv
    by_cases h : k = t
    · subst h
      simp [dictInsert, lookupToken, hnt]
    · simp only [dictInsert, if_neg h, lookupToken]
      by_cases h2 : k = t'
      · simp [h2]
      · simp [h2, ih]

/-- With a never-true probe, the readiness loop is still running after any
number of iterations. -/
theorem wait_for_port_never (fuel n : Nat) :
    wait_for_port (fun _ => false) fuel n = none := by
  induction fuel generalizing n with
  | zero => rfl
  | succ k ih => simp [wait_for_port, ih]

/-- The readiness loop exits at the first successful probe, given enough
iterations: started at `k ≤ n` with all probes below `n` failing and the
probe at `n` succeeding, it returns `n`. -/
theorem wait_for_port_exits (status : Nat → Bool) (n : Nat) (hs : status n = true)
    (hmin : ∀ m, m < n → status m = false) :
    ∀ fuel k, k ≤ n → n < k + fuel → wait_for_port status fuel k = some n := by
  intro fuel
  induction fuel with
  | zero => intro k hk hlt; omega
  | succ f ih =>
    intro k hk hlt
    by_cases hkn : k = n
    · subst hkn
      simp [wait_for_port, hs]
    · have hklt : k < n := lt_of_le_of_ne hk hkn
      have hf : status k = false := hmin k hklt
      rw [wait_for_port, hf]
      simp only [Bool.false_eq_true, if_false]
      exact ih (k + 1) hklt (by omega)

/-- Every list is a Boolean prefix of itself. -/
theorem isPrefixOfB_refl (l : List Char) : isPrefixOfB l l = true := by
  induction l with
  | nil => rfl
  | cons c cs ih => simp [isPrefixOfB, ih]

/-- Every list occurs in itself as a substring. -/
theorem containsSub_self (l : List Char) : containsSub l l = true := by
  cases l with
  | nil => rfl
  | cons c cs => simp [containsSub, isPrefixOfB_refl]

/-- A substring of the right part of a concatenation is a substring of the
whole. -/
theorem containsSub_append_right (t xs ys : List Char)
    (h : containsSub t ys = true) : containsSub t (xs ++ ys) = true := by
  induction xs with
  | nil => simpa using h
  | cons c cs ih => simp [containsSub, ih]

/-- A component kept by `translate_path` is neither the parent nor the
current directory. -/
theorem isSimpleComp_spec {w : List Char} (h : isSimpleComp w = true) :
    w ≠ "..".data ∧ w ≠ ".".data := by
  unfold isSimpleComp at h
  simp only [Bool.and_eq_true, Bool.not_eq_true', beq_eq_false_iff_ne] at h
  exact ⟨h.2, h.1.2⟩

/-- A per-event count of zero in a replicated list of a different event. -/
theorem countP_replicate_ne (n : Nat) (x y : BuildEvent) (h : ¬ y = x) :
    (List.replicate n y).countP (fun e => decide (e = x)) = 0 := by
  induction n with
  | zero => rfl
  | succ k ih => simp [List.replicate_succ, List.countP_cons, ih, h]

/-! ### Claim theorems -/

/-- C7: loading the token store never fails the caller — a missing tokens
file and an unreadable or malformed one both load as the empty map, a
readable well-formed one loads in full, and over a missing or corrupt store
every token validates as invalid (fail closed). -/
theorem c7_load_fail_closed :
    get_valid_tokens .missing = [] ∧ get_valid_tokens .corrupt = [] ∧
    (∀ ts : TokenStore, get_valid_tokens (.ok ts) = ts) ∧
    (∀ (t : List Char) (now : Int),
      validate_token .missing t now = false ∧
      validate_token .corrupt t now = false) := by
  refine ⟨rfl, rfl, fun ts => rfl, fun t now => ⟨?_, ?_⟩⟩ <;>
    exact validate_token_of_lookup_none _ t now (by cases t <;> rfl)

/-- C1 counterexample: with the store holding token `T` created at 5 and
expiring at 10, validation at `now = 10` returns true although the claim
demands false at the expiry instant, and validation at `now = 3` returns
true although `createdAt ≤ now` fails — so validity is not equivalent to
`createdAt ≤ now < expiresAt`. -/
theorem c1_validate_counterexample :
    ¬ ((validate_token (.ok c1Store) "T".data 10 = true ↔
          ((5 : Int) ≤ 10 ∧ (10 : Int) < 10)) ∧
       (validate_token (.ok c1Store) "T".data 3 = true ↔
          ((5 : Int) ≤ 3 ∧ (3 : Int) < 10))) := by decide

/-- C1 amended: for every grant in the loaded snapshot with a nonempty
token, validation succeeds iff the record carries an `expires` field and
`now ≤ expiresAt` — the creation instant is never checked and a token is
still valid exactly at its expiry instant; a token not present in the
store is invalid at every instant. -/
theorem c1_validate_amended :
    (∀ (ts : TokenStore) (t : List Char) (g : Grant) (now : Int),
        lookupToken ts t = some g → t ≠ [] →
        (validate_token (.ok ts) t now = true ↔
          ∃ e, g.expires = some e ∧ now ≤ e)) ∧
    (∀ (file : TokensFile) (t : List Char) (now : Int),
        lookupToken (get_valid_tokens file) t = none →
        validate_token file t now = false) := by
  constructor
  · intro ts t g now hlook hne
    unfold validate_token
    rw [if_neg hne]
    show (match lookupToken ts t with
      | none => false
      | some g =>
        match g.expires with
        | none => false
        | some e => if e < now then false else true) = true ↔ _
    rw [hlook]
    cases hexp : g.expires with
    | none => simp [hexp]
    | some e =>
      by_cases hlt : e < now
      · simp only [if_pos hlt, hexp]
        constructor
        · intro hfalse; exact absurd hfalse (by simp)
        · rintro ⟨e2, he2, hle⟩
          cases he2
          omega
      · simp only [if_neg hlt, hexp]
        constructor
        · intro _; exact ⟨e, rfl, by omega⟩
        · intro _; trivial
  · intro file t now h
    exact validate_token_of_lookup_none file t now h

/-- Witness for the amended C1: token `T` of the fixture store validates at
instant 7, and the absent token `X` does not. -/
theorem c1_validate_amended_witness :
    validate_token (.ok c1Store) "T".data 7 = true ∧
    validate_token (.ok c1Store) "X".data 7 = false :=
  ⟨(c1_validate_amended.1 c1Store "T".data c1Grant 7 (by decide) (by decide)).2
      ⟨10, rfl, by decide⟩,
   c1_validate_amended.2 (.ok c1Store) "X".data 7 (by decide)⟩

/-- C6: a GET request whose query string binds no `access_token` parameter
is answered with the fixed 403 denial, for every store content and time —
the handler never reaches content serving. -/
theorem c6_missing_token_denied :
    ∀ (file : TokensFile) (now : Int) (raw : List Char)
      (serve : List Char → Response),
      hasAccessToken raw = false →
      do_GET file now raw = .denied ∧
      responseOf serve (do_GET file now raw) = deniedResponse := by
  intro file now raw serve h
  have ht : extractToken raw = [] :=
    findParam_eq_nil "access_token".data (parse_qsl (urlQuery raw)) h
  have hv : validate_token file (extractToken raw) now = false := by
    rw [ht]; exact validate_token_nil file now
  refine ⟨?_, ?_⟩ <;> simp [do_GET, hv, responseOf]

/-- Witness for C6: the token-free request is denied even over a store that
holds a currently valid grant. -/
theorem c6_missing_token_denied_witness :
    do_GET (.ok c1Store) 7 "/index.html".data = .denied ∧
    responseOf (fun p => ⟨200, p⟩) (do_GET (.ok c1Store) 7 "/index.html".data) =
      deniedResponse :=
  c6_missing_token_denied (.ok c1Store) 7 "/index.html".data
    (fun p => ⟨200, p⟩) (by decide)

/-- C5: a request with no `access_token` parameter and a request carrying a
token that fails validation receive identical responses — the same 403
status with the same fixed body, whatever the two requested paths and
whatever the underlying file server would have answered. -/
theorem c5_uniform_denial :
    ∀ (file : TokensFile) (now : Int) (raw1 raw2 : List Char)
      (serve1 serve2 : List Char → Response),
      hasAccessToken raw1 = false →
      hasAccessToken raw2 = true →
      validate_token file (extractToken raw2) now = false →
      responseOf serve1 (do_GET file now raw1) = deniedResponse ∧
      responseOf serve2 (do_GET file now raw2) = deniedResponse ∧
      responseOf serve1 (do_GET file now raw1) =
        responseOf serve2 (do_GET file now raw2) := by
  intro file now raw1 raw2 serve1 serve2 h1 _ hv2
  have ht : extractToken raw1 = [] :=
    findParam_eq_nil "access_token".data (parse_qsl (urlQuery raw1)) h1
  have hv1 : validate_token file (extractToken raw1) now = false := by
    rw [ht]; exact validate_token_nil file now
  refine ⟨?_, ?_, ?_⟩ <;> simp [do_GET, hv1, hv2, responseOf]

/-- Witness for C5: against the fixture store at instant 20 (token `T`
expired at 10), the token-free request and the expired-token request get the
same fixed 403 denial. -/
theorem c5_uniform_denial_witness :
    responseOf (fun p => ⟨200, p⟩) (do_GET (.ok c1Store) 20 "/index.html".data) =
      deniedResponse ∧
    responseOf (fun p => ⟨200, p⟩)
        (do_GET (.ok c1Store) 20 "/index.html?access_token=T".data) =
      deniedResponse ∧
    responseOf (fun p => ⟨200, p⟩) (do_GET (.ok c1Store) 20 "/index.html".data) =
      responseOf (fun p => ⟨200, p⟩)
        (do_GET (.ok c1Store) 20 "/index.html?access_token=T".data) :=
  c5_uniform_denial (.ok c1Store) 20 "/index.html".data
    "/index.html?access_token=T".data (fun p => ⟨200, p⟩) (fun p => ⟨200, p⟩)
    (by decide) (by decide) (by decide)

/-- C3: on a valid token the handler serves the query-stripped path; path
resolution always lands inside the content root — the resolved path is the
root followed only by plain components (never a parent- or
current-directory step, never an empty one), so no request is served from
outside the root; concretely, a traversal request for an outside file is
answered 404 while the in-root file is served 200, with the same valid
token. -/
theorem c3_serving_within_root :
    (∀ (file : TokensFile) (now : Int) (raw : List Char),
        validate_token file (extractToken raw) now = true →
        do_GET file now raw = .serve (strippedPath raw)) ∧
    (∀ (root : List (List Char)) (raw : List Char),
        ∃ rest, translate_path root raw = root ++ rest ∧
          ∀ w ∈ rest, w ≠ "..".data ∧ w ≠ ".".data ∧ w ≠ []) ∧
    handle_request c3Fs c3Root c3File 0
        "/../../etc/passwd?access_token=T".data = ⟨404, "File not found".data⟩ ∧
    handle_request c3Fs c3Root c3File 0
        "/slides.md?access_token=T".data = ⟨200, "# Slides".data⟩ := by
  refine ⟨?_, ?_, by decide, by decide⟩
  · intro file now raw h
    simp [do_GET, h]
  · intro root raw
    refine ⟨servedWords raw, rfl, ?_⟩
    intro w hw
    unfold servedWords at hw
    rw [List.mem_filter] at hw
    obtain ⟨hw1, hsimple⟩ := hw
    rw [List.mem_filter] at hw1
    obtain ⟨-, hne⟩ := hw1
    obtain ⟨hpar, hcur⟩ := isSimpleComp_spec hsimple
    exact ⟨hpar, hcur, of_decide_eq_true hne⟩

/-- Witness for C3: the valid-token request for `slides.md` falls through to
serving with the query string stripped. -/
theorem c3_serving_within_root_witness :
    do_GET c3File 0 "/slides.md?access_token=T".data =
      .serve (strippedPath "/slides.md?access_token=T".data) :=
  c3_serving_within_root.1 c3File 0 "/slides.md?access_token=T".data (by decide)

/-- C8: issuance is load-merge-save over a well-formed persisted store —
the new grant is retrievable by its token, every other token maps exactly
as before, and two sequential issuances with distinct tokens are each
independently retrievable by their own token. -/
theorem c8_issuance_load_merge_save :
    ∀ (ts : TokenStore) (t : List Char) (g : Grant),
      lookupToken (generate_presentation_token (.ok ts) t g) t = some g ∧
      (∀ t', t' ≠ t →
        lookupToken (generate_presentation_token (.ok ts) t g) t' =
          lookupToken ts t') ∧
      (∀ (t2 : List Char) (g2 : Grant), t ≠ t2 →
        lookupToken (generate_presentation_token
          (.ok (generate_presentation_token (.ok ts) t g)) t2 g2) t2 = some g2 ∧
        lookupToken (generate_presentation_token
          (.ok (generate_presentation_token (.ok ts) t g)) t2 g2) t = some g) := by
  intro ts t g
  refine ⟨lookup_dictInsert_self ts t g, ?_, ?_⟩
  · intro t' h
    exact lookup_dictInsert_other ts t t' g h
  · intro t2 g2 h
    refine ⟨lookup_dictInsert_self _ t2 g2, ?_⟩
    rw [show generate_presentation_token
          (.ok (generate_presentation_token (.ok ts) t g)) t2 g2 =
        dictInsert (generate_presentation_token (.ok ts) t g) t2 g2 from rfl,
      lookup_dictInsert_other _ t2 t g2 h]
    exact lookup_dictInsert_self ts t g

/-- Witness for C8: issuing `A` then `B` over an empty well-formed store
leaves both grants retrievable by their own token. -/
theorem c8_issuance_load_merge_save_witness :
    lookupToken (generate_presentation_token
        (.ok (generate_presentation_token (.ok []) "A".data c8GrantA))
        "B".data c8GrantB) "B".data = some c8GrantB ∧
    lookupToken (generate_presentation_token
        (.ok (generate_presentation_token (.ok []) "A".data c8GrantA))
        "B".data c8GrantB) "A".data = some c8GrantA :=
  (c8_issuance_load_merge_save [] "A".data c8GrantA).2.2 "B".data c8GrantB
    (by decide)

/-- C10: when the tokens file is present but unreadable or malformed,
issuance does not fail — it proceeds from the empty map and writes back a
store holding exactly the newly issued grant, so no previously persisted
token is retrievable afterwards. -/
theorem c10_corrupt_store_clobbered :
    ∀ (t : List Char) (g : Grant),
      generate_presentation_token .corrupt t g = [(t, g)] ∧
      ∀ t', t' ≠ t →
        lookupToken (generate_presentation_token .corrupt t g) t' = none := by
  intro t g
  refine ⟨rfl, ?_⟩
  intro t' h
  show lookupToken [(t, g)] t' = none
  simp [lookupToken, Ne.symm h]

/-- Witness for C10: issuing `B` over a corrupt store yields the singleton
store, and the previously persisted token `A` is gone. -/
theorem c10_corrupt_store_clobbered_witness :
    generate_presentation_token .corrupt "B".data c8GrantB =
      [("B".data, c8GrantB)] ∧
    lookupToken (generate_presentation_token .corrupt "B".data c8GrantB)
      "A".data = none :=
  ⟨(c10_corrupt_store_clobbered "B".data c8GrantB).1,
   (c10_corrupt_store_clobbered "B".data c8GrantB).2 "A".data (by decide)⟩

/-- C2 counterexample: in the build trace with cached content present and
the port occupied, both the process kill and the content removal occur, but
the kill does not precede the removal of the old slides — the content
directory is mutated before the prior process is terminated, violating the
stop-before-replace ordering. -/
theorem c2_ordering_counterexample :
    BuildEvent.killProcess ∈ c2DemoTrace ∧
    BuildEvent.removeSlides ∈ c2DemoTrace ∧
    ¬ eventPos c2DemoTrace .killProcess < eventPos c2DemoTrace .removeSlides := by
  decide

/-- C2 amended: the session build first performs the whole content
replacement, then terminates the process bound to the port, then launches
the new rendering process and waits — the content phase contains no kill
and no launch, so terminate-before-launch holds, but the content directory
is mutated before (not after) the terminate. -/
theorem c2_replace_then_stop_then_launch :
    ∀ (s a : Bool) (n : Nat),
      build_slidev_trace s a n true =
        cache_presentation_trace s a n ++
          [.killProcess, .launchProcess, .waitForPort] ∧
      (cache_presentation_trace s a n).countP
        (fun e => decide (e = .killProcess)) = 0 ∧
      (cache_presentation_trace s a n).countP
        (fun e => decide (e = .launchProcess)) = 0 := by
  intro s a n
  refine ⟨?_, ?_, ?_⟩
  · simp [build_slidev_trace, start_slidev_trace, stop_slidev_trace]
  · cases s <;> cases a <;>
      simp [cache_presentation_trace, List.countP_append, List.countP_cons,
        countP_replicate_ne]
  · cases s <;> cases a <;>
      simp [cache_presentation_trace, List.countP_append, List.countP_cons,
        countP_replicate_ne]

/-- C4 counterexample: with a port that never binds, the readiness loop of
the build has not exited after a million polls — there is no maximum wait
after which the session attempt fails. -/
theorem c4_wait_counterexample :
    wait_for_port (fun _ => false) 1000000 0 = none :=
  wait_for_port_never 1000000 0

/-- C4 amended: the readiness loop exits as soon as a poll reports the port
bound — if the first successful probe is the n-th, the loop returns after
exactly n+1 probes — but it is not bounded: with a port that never binds it
is still running after any number of iterations, and no failure is ever
signalled. -/
theorem c4_wait_loop_amended :
    (∀ (status : Nat → Bool) (n : Nat), status n = true →
        (∀ m, m < n → status m = false) →
        ∀ fuel, n < fuel → wait_for_port status fuel 0 = some n) ∧
    (∀ fuel n, wait_for_port (fun _ => false) fuel n = none) := by
  constructor
  · intro status n hs hmin fuel hfuel
    exact wait_for_port_exits status n hs hmin fuel 0 (Nat.zero_le n) (by omega)
  · exact wait_for_port_never

/-- Witness for the amended C4: with a port that binds at the fourth probe,
ten iterations of the loop return that probe index. -/
theorem c4_wait_loop_amended_witness :
    wait_for_port (fun n => decide (n = 3)) 10 0 = some 3 :=
  c4_wait_loop_amended.1 (fun n => decide (n = 3)) 3 (by decide) (by decide)
    10 (by decide)

/-- C9 counterexample: handling the request for `slides.md` carrying the
(invalid) token `SECRETTOKEN12345` produces a log line that contains the
full token value — the denied-request log interpolates the raw request
target, query string included. -/
theorem c9_token_in_logs_counterexample :
    (do_GET_logs (.ok []) 0 "/slides.md?access_token=SECRETTOKEN12345".data).any
      (fun m => containsSub "SECRETTOKEN12345".data m) = true := by decide

/-- C9 amended: every request is logged — a denied request with the
Access-denied line carrying the full raw target (hence the full token when
one was supplied), an accepted request with its request line — and the
session-establishment log always contains the issued token in full. -/
theorem c9_logging_amended :
    (∀ (file : TokensFile) (now : Int) (raw : List Char),
        validate_token file (extractToken raw) now = false →
        ("Access denied for request: ".data ++ raw) ∈ do_GET_logs file now raw) ∧
    (∀ (file : TokensFile) (now : Int) (raw : List Char),
        validate_token file (extractToken raw) now = true →
        request_log_line raw ∈ do_GET_logs file now raw) ∧
    (∀ domain token : List Char,
        containsSub token (view_presentation_log domain token) = true) := by
  refine ⟨?_, ?_, ?_⟩
  · intro file now raw h
    simp [do_GET_logs, h]
  · intro file now raw h
    simp [do_GET_logs, h]
  · intro domain token
    unfold view_presentation_log
    exact containsSub_append_right _ _ _ (containsSub_self token)

/-- Witness for the amended C9: the expired-token request is logged with its
full raw target, and the valid-token request is logged with its request
line. -/
theorem c9_logging_amended_witness :
    ("Access denied for request: ".data ++ "/x?access_token=BAD".data) ∈
      do_GET_logs (.ok c1Store) 20 "/x?access_token=BAD".data ∧
    request_log_line "/slides.md?access_token=T".data ∈
      do_GET_logs (.ok c1Store) 7 "/slides.md?access_token=T".data :=
  ⟨c9_logging_amended.1 (.ok c1Store) 20 "/x?access_token=BAD".data (by decide),
   c9_logging_amended.2.1 (.ok c1Store) 7 "/slides.md?access_token=T".data
     (by decide)⟩

end SlideMaster
